import Mathlib

/-!
# Alert muting rule resource of the SignalFx Terraform provider

A shallow embedding of `signalfx/resource_signalfx_alert_muting_rule.go`:
the payload builder `getPayloadAlertMutingRule`, the state projector
`alertMutingRuleAPIToTF` and the five lifecycle operations
(`Create`, `Read`, `Update`, `Delete`, `Exists`).

Conventions of the embedding

* `*schema.ResourceData` is the record `ResourceData`; an operation that
  mutates `d` and returns `error` becomes a function returning the new
  record together with `Option String` (`none` is Go's `nil`, `some e` is an
  error whose `Error()` text is `e`).
* Go's `int` is taken at 64 bits, so `int` and `int64` have the same range and
  the conversions between them are the identity; the two multiplications by
  `1000` wrap around, which is `wrapInt64`.
* `time.Now().Unix()` is the parameter `now`.
* The remote API client (`config.Client`) is the record `Client` of the four
  calls the resource makes.
* A Go panic is the outcome `Run.panic`. The one place of the file that can
  panic on a configured value is the type assertion `d.(string)` of line 120,
  which meets `nil` for a detector id that is the empty string:
  `getPayloadAlertMutingRuleRun` is the payload builder with that assertion,
  `getPayloadAlertMutingRule` its value on the states where the assertion
  holds, and the lifecycle operations are stated on those states.
* The `filter` attribute is a set of the plugin SDK, keyed by the CRC-32 of the
  serialised element (`hashFilter`); a `SchemaSet` fixes the key and the
  elements of the set and leaves the order of its enumeration open.
-/

namespace Signalfx

/-! ## Machine integers and strings -/

/-- Two's-complement wrap-around of a 64-bit signed integer. -/
def wrapInt64 (x : Int) : Int := (x + 2 ^ 63) % 2 ^ 64 - 2 ^ 63

/-- Go's `strings.Contains(s, substr)`. -/
def stringsContains (s substr : String) : Bool :=
  decide (substr.toList <:+: s.toList)

/-! ## Data model -/

/-- One element of the `filter` attribute: the map with the keys
`property`, `property_value` and `negated`. -/
structure TfFilter where
  property : String
  property_value : String
  negated : Bool
deriving DecidableEq, Repr

/-- The client library's `alertmuting.AlertMutingRuleFilter`. -/
structure AlertMutingRuleFilter where
  Property : String
  PropertyValue : String
  NOT : Bool
deriving DecidableEq, Repr

/-- The client library's `alertmuting.CreateUpdateAlertMutingRuleRequest`. -/
structure CreateUpdateAlertMutingRuleRequest where
  Description : String
  Filters : List AlertMutingRuleFilter
  StartTime : Int
  StopTime : Int
deriving DecidableEq, Repr

/-- The client library's `alertmuting.AlertMutingRule`, with the fields the
resource reads. -/
structure AlertMutingRule where
  Id : String
  Description : String
  Filters : List AlertMutingRuleFilter
  StartTime : Int
  StopTime : Int
deriving DecidableEq, Repr

/-! ### The set of filters

The `filter` attribute is a `schema.TypeSet` whose element is a resource and
which declares no `Set` function, so the plugin SDK keys every element by
`HashResource`: the IEEE CRC-32 of the text
`negated:N;property:P;property_value:V;`. Two elements with the same key are
one element of the set. -/

/-- One bit of the reflected CRC-32 with the IEEE polynomial. -/
def crc32Bit (c : Nat) : Nat :=
  if c % 2 = 1 then (c >>> 1) ^^^ 0xEDB88320 else c >>> 1

/-- One byte of the CRC-32. -/
def crc32Byte (crc byte : Nat) : Nat :=
  crc32Bit (crc32Bit (crc32Bit (crc32Bit (crc32Bit (crc32Bit (crc32Bit (crc32Bit
    (crc ^^^ byte))))))))

/-- Go's `crc32.ChecksumIEEE`. -/
def crc32ChecksumIEEE (bytes : List Nat) : Nat :=
  (bytes.foldl crc32Byte 0xFFFFFFFF) ^^^ 0xFFFFFFFF

/-- The bytes of a Go string. -/
def utf8Bytes (s : String) : List Nat :=
  s.data.flatMap (fun c => (String.utf8EncodeChar c).map UInt8.toNat)

/-- The text the SDK's `SerializeResourceForHash` writes for a filter: the
keys of the element's schema in sorted order, each as `key:value;`, a boolean
as `1` or `0`. -/
def serializeFilterForHash (f : TfFilter) : String :=
  "negated:" ++ (if f.negated then "1" else "0") ++ ";property:" ++ f.property ++
    ";property_value:" ++ f.property_value ++ ";"

/-- The SDK's `HashResource` for the element of `filter`:
`hashcode.String` of the serialised text, which is its CRC-32. -/
def hashFilter (f : TfFilter) : Nat :=
  crc32ChecksumIEEE (utf8Bytes (serializeFilterForHash f))

/-- The set's `Add` for the key function `code`: an element whose key is
already in the set is dropped. -/
def setAdd (code : TfFilter → Nat) (acc : List TfFilter) (x : TfFilter) : List TfFilter :=
  if acc.any (fun y => decide (code y = code x)) then acc else acc ++ [x]

/-- The set built from a slice by adding its elements in order, as `d.Set`
does for a set attribute. -/
def setOfList (code : TfFilter → Nat) (xs : List TfFilter) : List TfFilter :=
  xs.foldl (setAdd code) []

/-- The plugin SDK's `schema.Set`, as far as the resource uses it. `code` is
the key of an element, `newSet xs` the `List()` enumeration of the set built
from the slice `xs`: it holds the elements of `setOfList code xs`, in the
SDK's own order, which is left open. -/
structure SchemaSet where
  code : TfFilter → Nat
  newSet : List TfFilter → List TfFilter
  newSet_perm : ∀ xs, (newSet xs).Perm (setOfList code xs)

/-- The set keyed by `hashFilter`, enumerated in the order in which the
elements were added. -/
def dedupSet : SchemaSet where
  code := hashFilter
  newSet := setOfList hashFilter
  newSet_perm := fun _ => List.Perm.refl _

/-- The resource's state: the id and the six attributes of the schema.
`filter` holds the `List()` enumeration of the set. -/
structure ResourceData where
  id : String
  description : String
  detectors : List String
  filter : List TfFilter
  start_time : Int
  stop_time : Int
  effective_start_time : Int
deriving DecidableEq, Repr

/-- The method `d.SetId`. -/
def ResourceData.SetId (d : ResourceData) (v : String) : ResourceData :=
  { d with id := v }

/-- The calls of `config.Client` used by the resource. A failing call returns
the text of its error. -/
structure Client where
  CreateAlertMutingRule : CreateUpdateAlertMutingRuleRequest → Except String AlertMutingRule
  GetAlertMutingRule : String → Except String AlertMutingRule
  UpdateAlertMutingRule : String → CreateUpdateAlertMutingRuleRequest → Except String AlertMutingRule
  DeleteAlertMutingRule : String → Option String

/-! ## Building the payload -/

/-- The filter built from one element of the `filter` set (lines 104-108). -/
def tfFilterToAPI (f : TfFilter) : AlertMutingRuleFilter :=
  { Property := f.property, PropertyValue := f.property_value, NOT := f.negated }

/-- The filter appended for one detector id (lines 118-122). -/
def detectorFilter (det : String) : AlertMutingRuleFilter :=
  { Property := "sf_detectorId", PropertyValue := det, NOT := false }

/-- The function `getPayloadAlertMutingRule` on a state whose detector
elements are all handed over as strings, so that the type assertion of line
120 holds; `getPayloadAlertMutingRuleRun` is the function with that assertion.
`d.GetOk("detectors")` reports `ok` exactly when the list is not empty. -/
def getPayloadAlertMutingRule (d : ResourceData) :
    Except String CreateUpdateAlertMutingRuleRequest :=
  let filterList := d.filter.foldl (fun acc f => acc ++ [tfFilterToAPI f]) []
  let filterList :=
    if d.detectors ≠ [] then
      d.detectors.foldl (fun acc det => acc ++ [detectorFilter det]) filterList
    else filterList
  .ok { Description := d.description
        Filters := filterList
        StartTime := wrapInt64 (d.start_time * 1000)
        StopTime := wrapInt64 (d.stop_time * 1000) }

/-- The outcome of running a Go function: it returns a value, or it panics
with a message. -/
inductive Run (α : Type) where
  | done (a : α)
  | panic (msg : String)
deriving DecidableEq, Repr

/-- The slice `d.GetOk("detectors")` hands over, one `interface{}` per
element: the SDK reads a list element that is the empty string as `nil`
(`none`), any other as that string. -/
def detectorElems (d : ResourceData) : List (Option String) :=
  d.detectors.map (fun s => if s = "" then none else some s)

/-- The message of the panic of a failed type assertion `x.(string)` on a
`nil` interface value. -/
def nilAssertionPanic : String := "interface conversion: interface {} is nil, not string"

/-- The body of the loop over the detectors (lines 117-123): the type
assertion `d.(string)` of line 120 is unchecked and panics on `nil`. -/
def appendDetector (acc : Run (List AlertMutingRuleFilter)) (elem : Option String) :
    Run (List AlertMutingRuleFilter) :=
  match acc, elem with
  | .panic msg, _ => .panic msg
  | .done _, none => .panic nilAssertionPanic
  | .done filterList, some det => .done (filterList ++ [detectorFilter det])

/-- The function `getPayloadAlertMutingRule` as it runs, with the type
assertion of line 120: it panics when a detector element is `nil` and returns
what `getPayloadAlertMutingRule` gives otherwise. -/
def getPayloadAlertMutingRuleRun (d : ResourceData) :
    Run (Except String CreateUpdateAlertMutingRuleRequest) :=
  let filterList := d.filter.foldl (fun acc f => acc ++ [tfFilterToAPI f]) []
  let appended :=
    if d.detectors ≠ [] then
      (detectorElems d).foldl appendDetector (.done filterList)
    else .done filterList
  match appended with
  | .panic msg => .panic msg
  | .done filterList =>
    .done (.ok { Description := d.description
                 Filters := filterList
                 StartTime := wrapInt64 (d.start_time * 1000)
                 StopTime := wrapInt64 (d.stop_time * 1000) })

/-! ## Projecting a remote entity onto the state -/

/-- The body of the loop over `amr.Filters` (lines 193-205): the accumulator
is the pair `(filters, detectors)`. -/
def routeFilter (acc : List TfFilter × List String) (f : AlertMutingRuleFilter) :
    List TfFilter × List String :=
  if f.Property = "sf_detectorId" then
    (acc.1, acc.2 ++ [f.PropertyValue])
  else
    (acc.1 ++ [{ property := f.Property, property_value := f.PropertyValue, negated := f.NOT }],
      acc.2)

/-- The function `alertMutingRuleAPIToTF`. Every `d.Set` is given a value of
the attribute's type and succeeds, so the error returned is `nil`. -/
def alertMutingRuleAPIToTF (S : SchemaSet) (d : ResourceData) (amr : AlertMutingRule) :
    ResourceData × Option String :=
  let d := { d with description := amr.Description }
  if amr.Filters.length > 0 then
    let acc := amr.Filters.foldl routeFilter ([], [])
    let d := { d with filter := S.newSet acc.1 }
    let d := { d with detectors := acc.2 }
    let d := { d with effective_start_time := amr.StartTime }
    let d := { d with stop_time := Int.tdiv amr.StopTime 1000 }
    (d, none)
  else
    (d, none)

/-! ## Lifecycle operations -/

/-- The function `alertMutingRuleCreate`. -/
def alertMutingRuleCreate (S : SchemaSet) (c : Client) (d : ResourceData) :
    ResourceData × Option String :=
  match getPayloadAlertMutingRule d with
  | .error e => (d, some ("Failed creating json payload: " ++ e))
  | .ok payload =>
    match c.CreateAlertMutingRule payload with
    | .error e => (d, some e)
    | .ok amr => alertMutingRuleAPIToTF S (d.SetId amr.Id) amr

/-- The function `alertMutingRuleExists`. -/
def alertMutingRuleExists (c : Client) (d : ResourceData) : Bool × Option String :=
  match c.GetAlertMutingRule d.id with
  | .error e => if stringsContains e "404" then (false, none) else (false, some e)
  | .ok _ => (true, none)

/-- The function `alertMutingRuleRead`. -/
def alertMutingRuleRead (S : SchemaSet) (c : Client) (d : ResourceData) :
    ResourceData × Option String :=
  match c.GetAlertMutingRule d.id with
  | .error e =>
    let d := if stringsContains e "404" then d.SetId "" else d
    (d, some e)
  | .ok amr => alertMutingRuleAPIToTF S d amr

/-- Lines 233-253 of `alertMutingRuleUpdate`: the payload handed to
`UpdateAlertMutingRule`. `d.GetOk("effective_start_time")` reports `ok`
exactly when the attribute is not `0`. -/
def alertMutingRuleUpdatePayload (now : Int) (d : ResourceData) :
    Except String CreateUpdateAlertMutingRuleRequest :=
  match getPayloadAlertMutingRule d with
  | .error e => .error ("Failed creating json payload: " ++ e)
  | .ok payload =>
    if d.effective_start_time ≠ 0 then
      let est := d.effective_start_time
      let st := d.start_time
      if st ≤ now then
        .ok { payload with StartTime := est }
      else
        .ok { payload with StartTime := wrapInt64 (d.start_time * 1000) }
    else
      .ok payload

/-- The function `alertMutingRuleUpdate`. -/
def alertMutingRuleUpdate (S : SchemaSet) (c : Client) (now : Int) (d : ResourceData) :
    ResourceData × Option String :=
  match alertMutingRuleUpdatePayload now d with
  | .error e => (d, some e)
  | .ok payload =>
    match c.UpdateAlertMutingRule d.id payload with
    | .error e => (d, some e)
    | .ok det => alertMutingRuleAPIToTF S (d.SetId det.Id) det

/-- The function `alertMutingRuleDelete`. -/
def alertMutingRuleDelete (c : Client) (d : ResourceData) : Option String :=
  c.DeleteAlertMutingRule d.id

/-! ## Example states and clients -/

/-- A client all of whose calls fail with the error text `e`. -/
def failingClient (e : String) : Client where
  CreateAlertMutingRule := fun _ => .error e
  GetAlertMutingRule := fun _ => .error e
  UpdateAlertMutingRule := fun _ _ => .error e
  DeleteAlertMutingRule := fun _ => some e

/-- A rule with one generic filter and one detector, declared to start at
second `5` and to stop at second `7`; no effective start time observed yet. -/
def sampleData : ResourceData where
  id := "rule-1"
  description := "maintenance"
  detectors := ["det-1"]
  filter := [{ property := "env", property_value := "prod", negated := false }]
  start_time := 5
  stop_time := 7
  effective_start_time := 0

/-- A rule whose declared `filter` set itself holds an entry with the
property name `sf_detectorId`, next to one declared detector. -/
def reservedData : ResourceData where
  id := "rule-1"
  description := "maintenance"
  detectors := ["det-1"]
  filter := [{ property := "sf_detectorId", property_value := "det-9", negated := false }]
  start_time := 5
  stop_time := 7
  effective_start_time := 0

/-- A remote entity without filters, started at millisecond `5000` and
stopping at millisecond `9000`. -/
def bareRule : AlertMutingRule where
  Id := "rule-1"
  Description := "maintenance"
  Filters := []
  StartTime := 5000
  StopTime := 9000

/-- A remote entity whose filter list holds the generic filter
`{env, prod, false}` twice, followed by one detector filter. -/
def dupRule : AlertMutingRule where
  Id := "rule-1"
  Description := "maintenance"
  Filters := [{ Property := "env", PropertyValue := "prod", NOT := false },
              { Property := "env", PropertyValue := "prod", NOT := false },
              { Property := "sf_detectorId", PropertyValue := "det-1", NOT := false }]
  StartTime := 5000
  StopTime := 9000

/-- A remote entity with two different generic filters,
`{env, plumless, false}` and `{env, buckeroo, false}`, whose set keys are
equal: both serialised texts have the CRC-32 `4017213295`. -/
def collidingRule : AlertMutingRule where
  Id := "rule-1"
  Description := "maintenance"
  Filters := [{ Property := "env", PropertyValue := "plumless", NOT := false },
              { Property := "env", PropertyValue := "buckeroo", NOT := false }]
  StartTime := 5000
  StopTime := 9000

/-- The rule of `sampleData` with the empty string as its one detector id. -/
def emptyIdData : ResourceData :=
  { sampleData with detectors := [""] }

/-- A state that tracks another rule, with its own filter and detector. -/
def otherData : ResourceData where
  id := "rule-7"
  description := "night shift"
  detectors := ["det-5"]
  filter := [{ property := "region", property_value := "eu", negated := true }]
  start_time := 50
  stop_time := 70
  effective_start_time := 50000

/-! ## Closed forms used in the proofs -/

/-- The filter list of the payload, in closed form. -/
def payloadFilters (d : ResourceData) : List AlertMutingRuleFilter :=
  d.filter.map tfFilterToAPI ++ d.detectors.map detectorFilter

/-- What `alertMutingRuleCreate` and `alertMutingRuleUpdate` do with the answer
of their remote call. -/
def remoteOutcome (S : SchemaSet) (d : ResourceData) :
    Except String AlertMutingRule → ResourceData × Option String
  | .error e => (d, some e)
  | .ok det => alertMutingRuleAPIToTF S (d.SetId det.Id) det

/-- The element stored in the `filter` attribute for a remote filter that is
not a detector reference (lines 200-204). -/
def apiFilterToTF (f : AlertMutingRuleFilter) : TfFilter :=
  { property := f.Property, property_value := f.PropertyValue, negated := f.NOT }

/-! ## Auxiliary lemmas -/

theorem wrapInt64_of_inRange (x : Int) (hlo : -(2 ^ 63) ≤ x) (hhi : x < 2 ^ 63) :
    wrapInt64 x = x := by
  unfold wrapInt64
  omega

theorem stringsContains_append (pre mid post : String) :
    stringsContains (pre ++ mid ++ post) mid = true := by
  unfold stringsContains
  simp only [decide_eq_true_eq, String.toList, String.data_append]
  exact ⟨pre.data, post.data, rfl⟩

theorem foldl_snoc_eq_append_map {α β : Type} (g : α → β) (xs : List α) (init : List β) :
    xs.foldl (fun acc x => acc ++ [g x]) init = init ++ xs.map g := by
  induction xs generalizing init with
  | nil => simp
  | cons x xs ih => simp [ih]

theorem getPayloadAlertMutingRule_eq (d : ResourceData) :
    getPayloadAlertMutingRule d =
      .ok { Description := d.description
            Filters := payloadFilters d
            StartTime := wrapInt64 (d.start_time * 1000)
            StopTime := wrapInt64 (d.stop_time * 1000) } := by
  unfold getPayloadAlertMutingRule payloadFilters
  by_cases h : d.detectors = []
  · simp [h, foldl_snoc_eq_append_map]
  · simp [h, foldl_snoc_eq_append_map]

theorem alertMutingRuleUpdatePayload_eq (now : Int) (d : ResourceData) :
    alertMutingRuleUpdatePayload now d =
      .ok { Description := d.description
            Filters := payloadFilters d
            StartTime :=
              if d.effective_start_time ≠ 0 ∧ d.start_time ≤ now then d.effective_start_time
              else wrapInt64 (d.start_time * 1000)
            StopTime := wrapInt64 (d.stop_time * 1000) } := by
  unfold alertMutingRuleUpdatePayload
  rw [getPayloadAlertMutingRule_eq]
  by_cases h0 : d.effective_start_time = 0
  · simp [h0]
  · by_cases h1 : d.start_time ≤ now
    · simp [h0, h1]
    · simp [h0, h1]

theorem alertMutingRuleUpdate_eq (S : SchemaSet) (c : Client) (now : Int) (d : ResourceData)
    (p : CreateUpdateAlertMutingRuleRequest) (hp : alertMutingRuleUpdatePayload now d = .ok p) :
    alertMutingRuleUpdate S c now d = remoteOutcome S d (c.UpdateAlertMutingRule d.id p) := by
  unfold alertMutingRuleUpdate remoteOutcome
  rw [hp]

theorem foldl_routeFilter (xs : List AlertMutingRuleFilter) (acc : List TfFilter × List String) :
    xs.foldl routeFilter acc =
      (acc.1 ++ (xs.filter (fun f => decide (f.Property ≠ "sf_detectorId"))).map apiFilterToTF,
       acc.2 ++ (xs.filter (fun f => decide (f.Property = "sf_detectorId"))).map
          (fun f => f.PropertyValue)) := by
  induction xs generalizing acc with
  | nil => simp
  | cons x xs ih =>
    by_cases h : x.Property = "sf_detectorId"
    · simp [List.foldl_cons, ih, routeFilter, h]
    · simp [List.foldl_cons, ih, routeFilter, h, apiFilterToTF]

theorem apiFilterToTF_tfFilterToAPI (f : TfFilter) : apiFilterToTF (tfFilterToAPI f) = f := rfl

theorem payloadFilters_detectors (d : ResourceData)
    (hF : ∀ f ∈ d.filter, f.property ≠ "sf_detectorId") :
    ((payloadFilters d).filter (fun f => decide (f.Property = "sf_detectorId"))).map
        (fun f => f.PropertyValue) = d.detectors := by
  have h1 : (d.filter.map tfFilterToAPI).filter
      (fun f => decide (f.Property = "sf_detectorId")) = [] := by
    rw [List.filter_eq_nil_iff]
    intro a ha
    obtain ⟨f, hf, rfl⟩ := List.mem_map.mp ha
    simpa [tfFilterToAPI] using hF f hf
  have h2 : (d.detectors.map detectorFilter).filter
      (fun f => decide (f.Property = "sf_detectorId")) = d.detectors.map detectorFilter := by
    rw [List.filter_eq_self]
    intro a ha
    obtain ⟨x, _, rfl⟩ := List.mem_map.mp ha
    simp [detectorFilter]
  unfold payloadFilters
  rw [List.filter_append, h1, h2, List.nil_append, List.map_map]
  exact (List.map_congr_left (fun x _ => rfl)).trans (List.map_id _)

theorem payloadFilters_generic (d : ResourceData)
    (hF : ∀ f ∈ d.filter, f.property ≠ "sf_detectorId") :
    ((payloadFilters d).filter (fun f => decide (f.Property ≠ "sf_detectorId"))).map
        apiFilterToTF = d.filter := by
  have h1 : (d.filter.map tfFilterToAPI).filter
      (fun f => decide (f.Property ≠ "sf_detectorId")) = d.filter.map tfFilterToAPI := by
    rw [List.filter_eq_self]
    intro a ha
    obtain ⟨f, hf, rfl⟩ := List.mem_map.mp ha
    simpa [tfFilterToAPI] using hF f hf
  have h2 : (d.detectors.map detectorFilter).filter
      (fun f => decide (f.Property ≠ "sf_detectorId")) = [] := by
    rw [List.filter_eq_nil_iff]
    intro a ha
    obtain ⟨x, _, rfl⟩ := List.mem_map.mp ha
    simp [detectorFilter]
  unfold payloadFilters
  rw [List.filter_append, h1, h2, List.append_nil, List.map_map]
  exact (List.map_congr_left (fun x _ => rfl)).trans (List.map_id _)

theorem payloadFilters_eq_nil (d : ResourceData) (h : payloadFilters d = []) :
    d.filter = [] ∧ d.detectors = [] := by
  unfold payloadFilters at h
  simpa using h

/-- The projection when the remote filter list is not empty, in closed form. -/
theorem alertMutingRuleAPIToTF_of_ne_nil (S : SchemaSet) (d : ResourceData)
    (amr : AlertMutingRule) (h : amr.Filters ≠ []) :
    alertMutingRuleAPIToTF S d amr =
      ({ id := d.id
         description := amr.Description
         detectors := (amr.Filters.filter (fun f => decide (f.Property = "sf_detectorId"))).map
            (fun f => f.PropertyValue)
         filter := S.newSet
            ((amr.Filters.filter (fun f => decide (f.Property ≠ "sf_detectorId"))).map
              apiFilterToTF)
         start_time := d.start_time
         stop_time := Int.tdiv amr.StopTime 1000
         effective_start_time := amr.StartTime }, none) := by
  have hl : amr.Filters.length > 0 := List.length_pos.mpr h
  simp [alertMutingRuleAPIToTF, hl, foldl_routeFilter]

/-- The projection when the remote filter list is empty: only the description
is written. -/
theorem alertMutingRuleAPIToTF_of_nil (S : SchemaSet) (d : ResourceData)
    (amr : AlertMutingRule) (h : amr.Filters = []) :
    alertMutingRuleAPIToTF S d amr = ({ d with description := amr.Description }, none) := by
  simp [alertMutingRuleAPIToTF, h]

theorem alertMutingRuleAPIToTF_start_time (S : SchemaSet) (d : ResourceData)
    (amr : AlertMutingRule) : (alertMutingRuleAPIToTF S d amr).1.start_time = d.start_time := by
  by_cases h : amr.Filters = []
  · rw [alertMutingRuleAPIToTF_of_nil S d amr h]
  · rw [alertMutingRuleAPIToTF_of_ne_nil S d amr h]

theorem tdiv_thousand (v : Int) : Int.tdiv (v * 1000) 1000 = v :=
  Int.mul_tdiv_cancel v (by decide)

theorem alertMutingRuleCreate_eq (S : SchemaSet) (c : Client) (d : ResourceData)
    (p : CreateUpdateAlertMutingRuleRequest) (hp : getPayloadAlertMutingRule d = .ok p) :
    alertMutingRuleCreate S c d = remoteOutcome S d (c.CreateAlertMutingRule p) := by
  unfold alertMutingRuleCreate remoteOutcome
  rw [hp]

theorem remoteOutcome_start_time (S : SchemaSet) (d : ResourceData)
    (r : Except String AlertMutingRule) : (remoteOutcome S d r).1.start_time = d.start_time := by
  cases r with
  | error e => rfl
  | ok amr => exact alertMutingRuleAPIToTF_start_time S _ amr

theorem tfFilterToAPI_apiFilterToTF (f : AlertMutingRuleFilter) :
    tfFilterToAPI (apiFilterToTF f) = f := rfl

theorem apiFilterToTF_injective : Function.Injective apiFilterToTF := by
  intro a b h
  have := congrArg tfFilterToAPI h
  simpa [tfFilterToAPI_apiFilterToTF] using this

theorem filter_detector_reset (R : List AlertMutingRuleFilter)
    (hneg : ∀ f ∈ R, f.Property = "sf_detectorId" → f.NOT = false) :
    (R.filter (fun f => decide (f.Property = "sf_detectorId"))).map
        (fun f => detectorFilter f.PropertyValue) =
      R.filter (fun f => decide (f.Property = "sf_detectorId")) := by
  have : ∀ f ∈ R.filter (fun f => decide (f.Property = "sf_detectorId")),
      detectorFilter f.PropertyValue = f := by
    intro f hf
    rw [List.mem_filter] at hf
    have hprop : f.Property = "sf_detectorId" := by simpa using hf.2
    have hnot := hneg f hf.1 hprop
    cases f
    simp only [detectorFilter] at *
    simp [hprop, hnot]
  exact (List.map_congr_left this).trans (List.map_id _)

theorem foldl_appendDetector_panic (msg : String) (es : List (Option String)) :
    es.foldl appendDetector (.panic msg) = .panic msg := by
  induction es with
  | nil => rfl
  | cons e es ih => simpa [List.foldl_cons, appendDetector] using ih

theorem foldl_appendDetector (D : List String) (init : List AlertMutingRuleFilter) :
    (D.map (fun s => if s = "" then none else some s)).foldl appendDetector (.done init) =
      if "" ∈ D then .panic nilAssertionPanic else .done (init ++ D.map detectorFilter) := by
  induction D generalizing init with
  | nil => simp
  | cons x D ih =>
    by_cases hx : x = ""
    · subst hx
      simp [List.foldl_cons, appendDetector, foldl_appendDetector_panic]
    · have hx' : ¬ "" = x := fun h => hx h.symm
      simp only [List.map_cons, List.foldl_cons, hx, if_false, appendDetector, ih,
        List.mem_cons, hx', false_or, List.append_assoc, List.singleton_append]

/-- The run of the payload builder: a panic exactly when some detector id is
the empty string, the payload of `getPayloadAlertMutingRule` otherwise. -/
theorem getPayloadAlertMutingRuleRun_eq (d : ResourceData) :
    getPayloadAlertMutingRuleRun d =
      if "" ∈ d.detectors then .panic nilAssertionPanic
      else .done (getPayloadAlertMutingRule d) := by
  rw [getPayloadAlertMutingRule_eq]
  unfold getPayloadAlertMutingRuleRun detectorElems payloadFilters
  by_cases h : d.detectors = []
  · simp [h, foldl_snoc_eq_append_map]
  · by_cases h0 : "" ∈ d.detectors
    · simp [h, h0, foldl_appendDetector]
    · simp [h, h0, foldl_appendDetector, foldl_snoc_eq_append_map]

theorem getPayloadAlertMutingRuleRun_of_not_mem (d : ResourceData) (h : "" ∉ d.detectors) :
    getPayloadAlertMutingRuleRun d =
      .done (.ok { Description := d.description
                   Filters := payloadFilters d
                   StartTime := wrapInt64 (d.start_time * 1000)
                   StopTime := wrapInt64 (d.stop_time * 1000) }) := by
  rw [getPayloadAlertMutingRuleRun_eq, if_neg h, getPayloadAlertMutingRule_eq]

theorem foldl_setAdd_of_nodup (code : TfFilter → Nat) (xs acc : List TfFilter)
    (h : ((acc ++ xs).map code).Nodup) : xs.foldl (setAdd code) acc = acc ++ xs := by
  induction xs generalizing acc with
  | nil => simp
  | cons x xs ih =>
    have hx : acc.any (fun y => decide (code y = code x)) = false := by
      rw [List.any_eq_false]
      intro y hy
      have hne : code y ≠ code x := by
        intro hc
        rw [List.map_append, List.map_cons, List.nodup_append] at h
        exact h.2.2 (List.mem_map_of_mem code hy) (hc ▸ List.mem_cons_self _ _)
      simpa using hne
    have h' : (((acc ++ [x]) ++ xs).map code).Nodup := by simpa using h
    simp only [List.foldl_cons, setAdd, hx]
    simpa using ih (acc ++ [x]) h'

theorem setOfList_of_nodup (code : TfFilter → Nat) (xs : List TfFilter)
    (h : (xs.map code).Nodup) : setOfList code xs = xs := by
  simpa [setOfList] using foldl_setAdd_of_nodup code xs [] (by simpa using h)

/-- A slice whose elements have pairwise different keys is kept whole by the
set, up to the order. -/
theorem newSet_perm_of_nodup (S : SchemaSet) (xs : List TfFilter)
    (h : (xs.map S.code).Nodup) : (S.newSet xs).Perm xs := by
  have hp := S.newSet_perm xs
  rwa [setOfList_of_nodup S.code xs h] at hp

/-- The filter list rebuilt from a projected state, when the generic filters
of the remote list have pairwise different set keys: those filters in the
order of the set, followed by the detector filters of the remote list in
their order, with `NOT` reset. -/
theorem payloadFilters_projection (S : SchemaSet) (d : ResourceData)
    (amr : AlertMutingRule) (h : amr.Filters ≠ [])
    (hkeys : ((amr.Filters.filter (fun f => decide (f.Property ≠ "sf_detectorId"))).map
      (fun f => S.code (apiFilterToTF f))).Nodup) :
    ∃ gs, gs.Perm (amr.Filters.filter (fun f => decide (f.Property ≠ "sf_detectorId"))) ∧
      payloadFilters (alertMutingRuleAPIToTF S d amr).1 =
        gs ++ (amr.Filters.filter (fun f => decide (f.Property = "sf_detectorId"))).map
          (fun f => detectorFilter f.PropertyValue) := by
  rw [alertMutingRuleAPIToTF_of_ne_nil S d amr h]
  refine ⟨(S.newSet ((amr.Filters.filter
    (fun f => decide (f.Property ≠ "sf_detectorId"))).map apiFilterToTF)).map tfFilterToAPI,
    ?_, ?_⟩
  · have hk : (((amr.Filters.filter
        (fun f => decide (f.Property ≠ "sf_detectorId"))).map apiFilterToTF).map S.code).Nodup := by
      rw [List.map_map]
      exact hkeys
    have hp := (newSet_perm_of_nodup S _ hk).map tfFilterToAPI
    rw [List.map_map] at hp
    have hid : (tfFilterToAPI ∘ apiFilterToTF) = id := funext tfFilterToAPI_apiFilterToTF
    rw [hid, List.map_id] at hp
    exact hp
  · show _ ++ _ = _ ++ _
    rw [List.map_map]
    rfl

/-- The filter round trip on the runs that build a payload: with no declared
filter named `sf_detectorId`, no empty detector id and a declared filter set
whose elements have pairwise different keys, the projection of an entity that
carries the payload filter list stores a rearrangement of the declared
filters, on any state when a filter or a detector is declared, and on the
states that already hold the declared filters when none is. -/
theorem filter_roundtrip_of_built (S : SchemaSet) (d target : ResourceData)
    (amr : AlertMutingRule) (hF : ∀ f ∈ d.filter, f.property ≠ "sf_detectorId")
    (hD : "" ∉ d.detectors) (hkeys : (d.filter.map S.code).Nodup)
    (hT : d.filter ≠ [] ∨ d.detectors ≠ [] ∨ target.filter = d.filter) :
    ∃ p, getPayloadAlertMutingRuleRun d = .done (.ok p) ∧
      (alertMutingRuleAPIToTF S target { amr with Filters := p.Filters }).1.filter.Perm
        d.filter := by
  refine ⟨_, getPayloadAlertMutingRuleRun_of_not_mem d hD, ?_⟩
  by_cases h : payloadFilters d = []
  · rw [alertMutingRuleAPIToTF_of_nil S _ _ h]
    obtain ⟨h1, h2⟩ := payloadFilters_eq_nil d h
    have ht : target.filter = d.filter := by
      rcases hT with hT | hT | hT
      · exact absurd h1 hT
      · exact absurd h2 hT
      · exact hT
    show target.filter.Perm d.filter
    rw [ht]
  · rw [alertMutingRuleAPIToTF_of_ne_nil S _ _ h]
    show (S.newSet _).Perm _
    have hX := payloadFilters_generic d hF
    have hX' : ((List.filter (fun f => decide (f.Property ≠ "sf_detectorId"))
        (payloadFilters d)).map apiFilterToTF) = d.filter := hX
    exact hX' ▸ newSet_perm_of_nodup S d.filter hkeys

set_option maxRecDepth 100000

/-! ## Theorems -/

/-- C1 (the code at the failing input): when the remote lookup of
`alertMutingRuleRead` fails with an error whose text contains `404`, the
tracked id is set to the empty string, and the value returned to the caller is
that same error, not `nil`. -/
theorem alertMutingRuleRead_notFound_returns_error (S : SchemaSet) (c : Client)
    (d : ResourceData) (pre post : String) :
    alertMutingRuleRead S
        { c with GetAlertMutingRule := fun _ => .error (pre ++ "404" ++ post) } d
      = (d.SetId "", some (pre ++ "404" ++ post)) := by
  simp [alertMutingRuleRead, stringsContains_append]

/-- C2 (counterexample): an update at second `10` of a rule declared to start
at second `5`, with no effective start time observed (`effective_start_time`
is `0`), sends `startTime = 5000`, the declared value in milliseconds, and not
the value held in `effective_start_time`. -/
theorem update_past_start_unobserved_sends_declared :
    sampleData.start_time ≤ 10 ∧
    ∃ p, alertMutingRuleUpdatePayload 10 sampleData = .ok p ∧
      p.StartTime = sampleData.start_time * 1000 ∧
      p.StartTime ≠ sampleData.effective_start_time := by
  refine ⟨by decide, _, rfl, by decide, by decide⟩

/-- C2 (amended): on an update with the declared start time at or before
`now`, the payload given to `UpdateAlertMutingRule` carries the value of
`effective_start_time` as its `StartTime` when that attribute is set
(non-zero), and the declared start time times `1000` (as a 64-bit integer)
when it is not. -/
theorem update_past_start_sends_effective (S : SchemaSet) (c : Client) (now : Int)
    (d : ResourceData) (h : d.start_time ≤ now) :
    ∃ p, alertMutingRuleUpdatePayload now d = .ok p ∧
      alertMutingRuleUpdate S c now d = remoteOutcome S d (c.UpdateAlertMutingRule d.id p) ∧
      (d.effective_start_time ≠ 0 → p.StartTime = d.effective_start_time) ∧
      (d.effective_start_time = 0 → p.StartTime = wrapInt64 (d.start_time * 1000)) := by
  refine ⟨_, alertMutingRuleUpdatePayload_eq now d,
    alertMutingRuleUpdate_eq S c now d _ (alertMutingRuleUpdatePayload_eq now d), ?_, ?_⟩
  · intro h0
    simp [h0, h]
  · intro h0
    simp [h0]

theorem update_past_start_sends_effective_witness :
    ∃ p, alertMutingRuleUpdatePayload 10 { sampleData with effective_start_time := 9000 } = .ok p ∧
      alertMutingRuleUpdate dedupSet (failingClient "Bad status 500") 10
          { sampleData with effective_start_time := 9000 }
        = remoteOutcome dedupSet { sampleData with effective_start_time := 9000 }
            ((failingClient "Bad status 500").UpdateAlertMutingRule "rule-1" p) ∧
      ((9000 : Int) ≠ 0 → p.StartTime = 9000) ∧
      ((9000 : Int) = 0 → p.StartTime = wrapInt64 (5 * 1000)) :=
  update_past_start_sends_effective dedupSet (failingClient "Bad status 500") 10
    { sampleData with effective_start_time := 9000 } (by decide)

/-- C3 (counterexample): an update at second `10` of a rule declared to start
at second `9223372036854776`, which is in the future, sends
`startTime = -9223372036854775616`: the product by `1000` does not fit in 64
bits and wraps around. -/
theorem update_future_start_overflows :
    (10 : Int) < 9223372036854776 ∧
    ∃ p, alertMutingRuleUpdatePayload 10 { sampleData with start_time := 9223372036854776 }
        = .ok p ∧
      p.StartTime = -9223372036854775616 ∧
      p.StartTime ≠ 9223372036854776 * 1000 := by
  refine ⟨by decide, _, rfl, by decide, by decide⟩

/-- C3 (amended): on an update with the declared start time `S` strictly
after `now`, and `S * 1000` in the range of a 64-bit signed integer, the
payload given to `UpdateAlertMutingRule` carries `StartTime = S * 1000`,
whatever the value of `effective_start_time`. -/
theorem update_future_start_sends_declared (S : SchemaSet) (c : Client) (now : Int)
    (d : ResourceData) (h : now < d.start_time)
    (hlo : -(2 ^ 63) ≤ d.start_time * 1000) (hhi : d.start_time * 1000 < 2 ^ 63) :
    ∃ p, alertMutingRuleUpdatePayload now d = .ok p ∧
      alertMutingRuleUpdate S c now d = remoteOutcome S d (c.UpdateAlertMutingRule d.id p) ∧
      p.StartTime = d.start_time * 1000 := by
  refine ⟨_, alertMutingRuleUpdatePayload_eq now d,
    alertMutingRuleUpdate_eq S c now d _ (alertMutingRuleUpdatePayload_eq now d), ?_⟩
  have h1 : ¬ d.start_time ≤ now := by omega
  simp [h1, wrapInt64_of_inRange _ hlo hhi]

theorem update_future_start_sends_declared_witness :
    ∃ p, alertMutingRuleUpdatePayload 3 { sampleData with effective_start_time := 9000 } = .ok p ∧
      alertMutingRuleUpdate dedupSet (failingClient "Bad status 500") 3
          { sampleData with effective_start_time := 9000 }
        = remoteOutcome dedupSet { sampleData with effective_start_time := 9000 }
            ((failingClient "Bad status 500").UpdateAlertMutingRule "rule-1" p) ∧
      p.StartTime = 5 * 1000 :=
  update_future_start_sends_declared dedupSet (failingClient "Bad status 500") 3
    { sampleData with effective_start_time := 9000 } (by decide) (by decide) (by decide)

/-- C4 (counterexample): with the declared filter set
`[{sf_detectorId, det-9, false}]` and the detectors `[det-1]`, projecting an
entity that carries the payload filter list sets the detectors attribute to
`[det-9, det-1]`, which is not the declared list `[det-1]`. -/
theorem detectors_roundtrip_fails_on_reserved_filter :
    ∃ p, getPayloadAlertMutingRuleRun reservedData = .done (.ok p) ∧
      (alertMutingRuleAPIToTF dedupSet reservedData
          { bareRule with Filters := p.Filters }).1.detectors = ["det-9", "det-1"] ∧
      reservedData.detectors = ["det-1"] ∧
      (alertMutingRuleAPIToTF dedupSet reservedData
          { bareRule with Filters := p.Filters }).1.detectors ≠ reservedData.detectors := by
  refine ⟨_, rfl, by decide, rfl, by decide⟩

/-- C4 (amended): when no entry of the declared filter set has the property
name `sf_detectorId` and no declared detector id is the empty string,
`getPayloadAlertMutingRule` returns a payload, and projecting an entity that
carries its filter list leaves the detectors attribute equal to the declared
list, element for element and in the same order: on any state when a filter or
a detector is declared, and on the states that already hold the declared
detectors (such as the state the payload was built from) when none is. -/
theorem detectors_roundtrip (S : SchemaSet) (d target : ResourceData)
    (amr : AlertMutingRule) (hF : ∀ f ∈ d.filter, f.property ≠ "sf_detectorId")
    (hD : "" ∉ d.detectors)
    (hT : d.filter ≠ [] ∨ d.detectors ≠ [] ∨ target.detectors = d.detectors) :
    ∃ p, getPayloadAlertMutingRuleRun d = .done (.ok p) ∧
      (alertMutingRuleAPIToTF S target { amr with Filters := p.Filters }).1.detectors
        = d.detectors := by
  refine ⟨_, getPayloadAlertMutingRuleRun_of_not_mem d hD, ?_⟩
  by_cases h : payloadFilters d = []
  · rw [alertMutingRuleAPIToTF_of_nil S _ _ h]
    obtain ⟨h1, h2⟩ := payloadFilters_eq_nil d h
    rcases hT with hT | hT | hT
    · exact absurd h1 hT
    · exact absurd h2 hT
    · exact hT
  · rw [alertMutingRuleAPIToTF_of_ne_nil S _ _ h]
    exact payloadFilters_detectors d hF

theorem detectors_roundtrip_witness :
    ∃ p, getPayloadAlertMutingRuleRun sampleData = .done (.ok p) ∧
      (alertMutingRuleAPIToTF dedupSet otherData
          { bareRule with Filters := p.Filters }).1.detectors = ["det-1"] :=
  detectors_roundtrip dedupSet sampleData otherData bareRule (by decide) (by decide)
    (Or.inl (by decide))

/-- C5 (the code at the failing input): with the declared filter set
`[{env, prod, false}]`, which has no entry named `sf_detectorId`, and the
detector list `[""]`, `getPayloadAlertMutingRule` panics in the type assertion
of line 120: no payload filter list is built, so there is nothing to project
back onto the filter attribute. -/
theorem filter_roundtrip_panics_on_empty_detector :
    emptyIdData.filter = [{ property := "env", property_value := "prod", negated := false }] ∧
    (∀ f ∈ emptyIdData.filter, f.property ≠ "sf_detectorId") ∧
    emptyIdData.detectors = [""] ∧
    getPayloadAlertMutingRuleRun emptyIdData
      = .panic "interface conversion: interface {} is nil, not string" := by
  refine ⟨rfl, by decide, rfl, rfl⟩

/-- C6 (the code at the failing input): for the detector list `[""]`
`getPayloadAlertMutingRule` panics in the type assertion of line 120 instead
of returning a payload with the entry `{sf_detectorId, "", false}`. In
general the run panics exactly when some detector id is the empty string, and
otherwise returns the payload whose filters are one entry per declared filter,
with property, value and negated flag copied, followed by one entry
`{sf_detectorId, det, false}` per declared detector `det`. -/
theorem payload_panics_on_empty_detector :
    getPayloadAlertMutingRuleRun emptyIdData
      = .panic "interface conversion: interface {} is nil, not string" ∧
    ∀ d : ResourceData, getPayloadAlertMutingRuleRun d =
      if "" ∈ d.detectors then .panic "interface conversion: interface {} is nil, not string"
      else .done (.ok
        { Description := d.description
          Filters :=
            d.filter.map (fun f =>
              { Property := f.property, PropertyValue := f.property_value, NOT := f.negated }) ++
            d.detectors.map (fun det =>
              { Property := "sf_detectorId", PropertyValue := det, NOT := false })
          StartTime := wrapInt64 (d.start_time * 1000)
          StopTime := wrapInt64 (d.stop_time * 1000) }) := by
  refine ⟨rfl, fun d => ?_⟩
  rw [getPayloadAlertMutingRuleRun_eq, getPayloadAlertMutingRule_eq]
  rfl

/-- C7: projecting a remote entity onto a state with
`alertMutingRuleAPIToTF` leaves the declared `start_time` as it was, whatever
the entity carries; so do create, read and update, whatever the remote calls
answer. -/
theorem start_time_never_overwritten (S : SchemaSet) (c : Client) (now : Int)
    (d : ResourceData) (amr : AlertMutingRule) :
    (alertMutingRuleAPIToTF S d amr).1.start_time = d.start_time ∧
    (alertMutingRuleCreate S c d).1.start_time = d.start_time ∧
    (alertMutingRuleRead S c d).1.start_time = d.start_time ∧
    (alertMutingRuleUpdate S c now d).1.start_time = d.start_time := by
  refine ⟨alertMutingRuleAPIToTF_start_time S d amr, ?_, ?_, ?_⟩
  · rw [alertMutingRuleCreate_eq S c d _ (getPayloadAlertMutingRule_eq d)]
    exact remoteOutcome_start_time S d _
  · unfold alertMutingRuleRead
    cases c.GetAlertMutingRule d.id with
    | error e =>
      by_cases h : stringsContains e "404" = true
      · simp [h, ResourceData.SetId]
      · simp [h]
    | ok r => exact alertMutingRuleAPIToTF_start_time S _ r
  · rw [alertMutingRuleUpdate_eq S c now d _ (alertMutingRuleUpdatePayload_eq now d)]
    exact remoteOutcome_start_time S d _

/-- C8 (counterexample): projecting a remote entity that has no filters and
`startTime = 5000` onto a state whose `effective_start_time` is `0` leaves the
attribute at `0`. -/
theorem effective_start_time_not_set_without_filters :
    bareRule.StartTime = 5000 ∧
    (alertMutingRuleAPIToTF dedupSet sampleData bareRule).1.effective_start_time = 0 ∧
    (alertMutingRuleAPIToTF dedupSet sampleData bareRule).1.effective_start_time
      ≠ bareRule.StartTime := by
  refine ⟨rfl, by decide, by decide⟩

/-- C8 (amended): after projecting a remote entity whose filter list is not
empty, `effective_start_time` is the entity's `StartTime`, unconverted; after
projecting an entity whose filter list is empty, the attribute is what it was
before. -/
theorem effective_start_time_verbatim (S : SchemaSet) (d : ResourceData)
    (amr : AlertMutingRule) :
    (amr.Filters ≠ [] →
      (alertMutingRuleAPIToTF S d amr).1.effective_start_time = amr.StartTime) ∧
    (amr.Filters = [] →
      (alertMutingRuleAPIToTF S d amr).1.effective_start_time = d.effective_start_time) := by
  constructor
  · intro h
    rw [alertMutingRuleAPIToTF_of_ne_nil S d amr h]
  · intro h
    rw [alertMutingRuleAPIToTF_of_nil S d amr h]

theorem effective_start_time_verbatim_witness :
    (([{ Property := "env", PropertyValue := "prod", NOT := true }] : List AlertMutingRuleFilter)
        ≠ [] →
      (alertMutingRuleAPIToTF dedupSet sampleData
        { bareRule with
          Filters := [{ Property := "env", PropertyValue := "prod", NOT := true }] }
        ).1.effective_start_time = 5000) ∧
    (([{ Property := "env", PropertyValue := "prod", NOT := true }] : List AlertMutingRuleFilter)
        = [] →
      (alertMutingRuleAPIToTF dedupSet sampleData
        { bareRule with
          Filters := [{ Property := "env", PropertyValue := "prod", NOT := true }] }
        ).1.effective_start_time = 0) :=
  effective_start_time_verbatim dedupSet sampleData
    { bareRule with Filters := [{ Property := "env", PropertyValue := "prod", NOT := true }] }

/-- C9 (counterexample): for the stop time `9223372036854776` the payload
carries `StopTime = -9223372036854775616`, since the product by `1000` wraps
around in 64 bits; and projecting a response without filters whose `StopTime`
is `9 * 1000` onto a state whose `stop_time` is `7` leaves the attribute at
`7`. -/
theorem stop_time_roundtrip_fails :
    (∃ p, getPayloadAlertMutingRule { sampleData with stop_time := 9223372036854776 } = .ok p ∧
      p.StopTime = -9223372036854775616 ∧ p.StopTime ≠ 9223372036854776 * 1000) ∧
    (bareRule.StopTime = 9 * 1000 ∧
      (alertMutingRuleAPIToTF dedupSet sampleData bareRule).1.stop_time = 7 ∧
      (alertMutingRuleAPIToTF dedupSet sampleData bareRule).1.stop_time ≠ 9) := by
  refine ⟨⟨_, rfl, by decide, by decide⟩, by decide, by decide, by decide⟩

/-- C9 (amended): for every stop time `V` with `0 ≤ V` and `V * 1000` in the
range of a 64-bit signed integer, the payload built from `stop_time = V`
carries `StopTime = V * 1000`; and projecting a remote response whose filter
list is not empty and whose `StopTime` is `V * 1000` sets `stop_time` to
`V`. -/
theorem stop_time_roundtrip (S : SchemaSet) (d : ResourceData) (V : Int)
    (h0 : 0 ≤ V) (hhi : V * 1000 < 2 ^ 63) :
    (∃ p, getPayloadAlertMutingRule { d with stop_time := V } = .ok p ∧
      p.StopTime = V * 1000) ∧
    (∀ amr : AlertMutingRule, amr.Filters ≠ [] → amr.StopTime = V * 1000 →
      (alertMutingRuleAPIToTF S d amr).1.stop_time = V) := by
  constructor
  · refine ⟨_, getPayloadAlertMutingRule_eq _, ?_⟩
    show wrapInt64 (V * 1000) = V * 1000
    exact wrapInt64_of_inRange _ (by omega) hhi
  · intro amr hne hstop
    rw [alertMutingRuleAPIToTF_of_ne_nil S d amr hne]
    show Int.tdiv amr.StopTime 1000 = V
    rw [hstop, tdiv_thousand]

theorem stop_time_roundtrip_witness :
    (∃ p, getPayloadAlertMutingRule { sampleData with stop_time := 9 } = .ok p ∧
      p.StopTime = 9 * 1000) ∧
    (∀ amr : AlertMutingRule, amr.Filters ≠ [] → amr.StopTime = 9 * 1000 →
      (alertMutingRuleAPIToTF dedupSet sampleData amr).1.stop_time = 9) :=
  stop_time_roundtrip dedupSet sampleData 9 (by decide) (by decide)

/-- C10 (counterexample): when the remote lookup of `alertMutingRuleExists`
fails with the error `Bad status 404: not found`, the operation returns
`false` and no error. -/
theorem exists_notFound_returns_no_error :
    (failingClient "Bad status 404: not found").GetAlertMutingRule sampleData.id
      = .error "Bad status 404: not found" ∧
    alertMutingRuleExists (failingClient "Bad status 404: not found") sampleData
      = (false, none) := by
  refine ⟨rfl, by decide⟩

/-- C10 (amended): when the remote call of create, update or delete fails
with an error `e`, a not-found (404) error or any other, the operation returns
`e`, and create and update leave the state as it was; when the lookup of
`alertMutingRuleExists` fails with `e`, the operation returns `false`, with
no error if the text of `e` contains `404` and with `e` otherwise. -/
theorem remote_error_outside_read (S : SchemaSet) (c : Client) (now : Int)
    (d : ResourceData) (e : String)
    (hC : ∀ p, c.CreateAlertMutingRule p = .error e)
    (hU : ∀ p, c.UpdateAlertMutingRule d.id p = .error e)
    (hD : c.DeleteAlertMutingRule d.id = some e)
    (hG : c.GetAlertMutingRule d.id = .error e) :
    alertMutingRuleCreate S c d = (d, some e) ∧
    alertMutingRuleUpdate S c now d = (d, some e) ∧
    alertMutingRuleDelete c d = some e ∧
    alertMutingRuleExists c d =
      (false, if stringsContains e "404" = true then none else some e) := by
  refine ⟨?_, ?_, hD, ?_⟩
  · rw [alertMutingRuleCreate_eq S c d _ (getPayloadAlertMutingRule_eq d), hC]
    rfl
  · rw [alertMutingRuleUpdate_eq S c now d _ (alertMutingRuleUpdatePayload_eq now d), hU]
    rfl
  · unfold alertMutingRuleExists
    rw [hG]
    by_cases h : stringsContains e "404" = true
    · simp [h]
    · simp [h]

theorem remote_error_outside_read_witness :
    alertMutingRuleCreate dedupSet (failingClient "Bad status 404: not found") sampleData
      = (sampleData, some "Bad status 404: not found") ∧
    alertMutingRuleUpdate dedupSet (failingClient "Bad status 404: not found") 10 sampleData
      = (sampleData, some "Bad status 404: not found") ∧
    alertMutingRuleDelete (failingClient "Bad status 404: not found") sampleData
      = some "Bad status 404: not found" ∧
    alertMutingRuleExists (failingClient "Bad status 404: not found") sampleData =
      (false, if stringsContains "Bad status 404: not found" "404" = true then none
        else some "Bad status 404: not found") :=
  remote_error_outside_read dedupSet (failingClient "Bad status 404: not found") 10 sampleData
    "Bad status 404: not found" (fun _ => rfl) (fun _ => rfl) rfl rfl

/-- C11 (counterexample): two remote filter lists that are not empty and
have no negated detector filter. The list
`[{env, prod, false}, {env, prod, false}, {sf_detectorId, det-1, false}]`
is rebuilt as `[{env, prod, false}, {sf_detectorId, det-1, false}]`; the list
`[{env, plumless, false}, {env, buckeroo, false}]`, whose two different
filters have the same set key, is rebuilt with a single entry. Neither result
is a permutation of the remote list. -/
theorem projection_then_payload_drops_repeated_filter :
    (dupRule.Filters ≠ [] ∧
      (∀ f ∈ dupRule.Filters, f.Property = "sf_detectorId" → f.NOT = false) ∧
      ∃ p, getPayloadAlertMutingRuleRun (alertMutingRuleAPIToTF dedupSet sampleData dupRule).1
          = .done (.ok p) ∧
        p.Filters = [{ Property := "env", PropertyValue := "prod", NOT := false },
                     { Property := "sf_detectorId", PropertyValue := "det-1", NOT := false }] ∧
        ¬ p.Filters.Perm dupRule.Filters) ∧
    (collidingRule.Filters ≠ [] ∧ collidingRule.Filters.Nodup ∧
      (∀ f ∈ collidingRule.Filters, f.Property = "sf_detectorId" → f.NOT = false) ∧
      hashFilter { property := "env", property_value := "plumless", negated := false }
        = hashFilter { property := "env", property_value := "buckeroo", negated := false } ∧
      ∃ p, getPayloadAlertMutingRuleRun
          (alertMutingRuleAPIToTF dedupSet sampleData collidingRule).1 = .done (.ok p) ∧
        p.Filters.length = 1 ∧
        ¬ p.Filters.Perm collidingRule.Filters) := by
  refine ⟨⟨by decide, by decide, _, rfl, by decide, ?_⟩,
    ⟨by decide, by decide, by decide, by decide, _, rfl, by decide, ?_⟩⟩
  · intro hperm
    exact absurd hperm.length_eq (by decide)
  · intro hperm
    exact absurd hperm.length_eq (by decide)

/-- C11 (amended): for every remote entity whose filter list is not empty,
has no filter with the property `sf_detectorId` that is negated or has the
empty string as its value, and whose other filters have pairwise different
set keys (so that none occurs twice), projecting it with
`alertMutingRuleAPIToTF` onto any state and rebuilding the payload from the
projected state with `getPayloadAlertMutingRule` returns a payload whose
filter list is a permutation of the remote one. -/
theorem projection_then_payload_perm (S : SchemaSet) (d : ResourceData)
    (amr : AlertMutingRule) (hne : amr.Filters ≠ [])
    (hneg : ∀ f ∈ amr.Filters, f.Property = "sf_detectorId" → f.NOT = false)
    (hval : ∀ f ∈ amr.Filters, f.Property = "sf_detectorId" → f.PropertyValue ≠ "")
    (hkeys : ((amr.Filters.filter (fun f => decide (f.Property ≠ "sf_detectorId"))).map
      (fun f => S.code (apiFilterToTF f))).Nodup) :
    ∃ p, getPayloadAlertMutingRuleRun (alertMutingRuleAPIToTF S d amr).1 = .done (.ok p) ∧
      p.Filters.Perm amr.Filters := by
  have hD : "" ∉ (alertMutingRuleAPIToTF S d amr).1.detectors := by
    rw [alertMutingRuleAPIToTF_of_ne_nil S d amr hne]
    intro hmem
    obtain ⟨f, hf, hfv⟩ := List.mem_map.mp hmem
    rw [List.mem_filter] at hf
    exact hval f hf.1 (by simpa using hf.2) hfv
  refine ⟨_, getPayloadAlertMutingRuleRun_of_not_mem _ hD, ?_⟩
  obtain ⟨gs, hgs, heq⟩ := payloadFilters_projection S d amr hne hkeys
  show (payloadFilters _).Perm _
  rw [heq, filter_detector_reset amr.Filters hneg]
  have hsplit := List.filter_append_perm
    (fun f : AlertMutingRuleFilter => decide (f.Property ≠ "sf_detectorId")) amr.Filters
  have hfun : (fun f : AlertMutingRuleFilter => !decide (f.Property ≠ "sf_detectorId")) =
      (fun f => decide (f.Property = "sf_detectorId")) := by
    funext f
    by_cases h : f.Property = "sf_detectorId" <;> simp [h]
  rw [hfun] at hsplit
  exact (hgs.append_right _).trans hsplit

theorem projection_then_payload_perm_witness :
    ∃ p, getPayloadAlertMutingRuleRun (alertMutingRuleAPIToTF dedupSet otherData
        { bareRule with
          Filters := [{ Property := "sf_detectorId", PropertyValue := "det-2", NOT := false },
                      { Property := "env", PropertyValue := "prod", NOT := true },
                      { Property := "env", PropertyValue := "staging", NOT := false }] }).1
        = .done (.ok p) ∧
      p.Filters.Perm
        [{ Property := "sf_detectorId", PropertyValue := "det-2", NOT := false },
         { Property := "env", PropertyValue := "prod", NOT := true },
         { Property := "env", PropertyValue := "staging", NOT := false }] :=
  projection_then_payload_perm dedupSet otherData
    { bareRule with
      Filters := [{ Property := "sf_detectorId", PropertyValue := "det-2", NOT := false },
                  { Property := "env", PropertyValue := "prod", NOT := true },
                  { Property := "env", PropertyValue := "staging", NOT := false }] }
    (by decide) (by decide) (by decide) (by decide)

end Signalfx
